import Mathlib

/-!
Shallow embedding of the bambulab cloud client (src/types.rs and
src/cloud/mod.rs): region-based endpoint resolution, bearer-token issuance
from a claims credential, the request builders of every authenticated call,
and the shared response pipeline with its error classification.

The outbound HTTP transport is passed to each operation as a function from
the assembled request to that request's outcome; the response body is carried
together with its structural-decode result, since the serialization
framework is an external collaborator assumed reliable by the spec.
-/

namespace BambuLab

/-- Account region enumeration (`Region`, src/types.rs lines 9-16). -/
inductive Region where
  | China
  | Europe
  | NorthAmerica
  | AsiaPacific
  | Other
deriving DecidableEq, Repr

/-- `Region::is_china` (src/types.rs lines 18-22): true exactly for `China`. -/
def Region.is_china : Region → Bool
  | .China => true
  | _ => false

/-- JWT signing algorithms, as far as the client distinguishes them
(`jsonwebtoken::Algorithm`, abridged to a representative family). -/
inductive Algorithm where
  | HS256
  | RS256
  | ES256
deriving DecidableEq, Repr

/-- JSON values appearing as claims in a credential payload. -/
inductive ClaimValue where
  | str (s : String)
  | num (n : Int)
  | bool (b : Bool)
  | null
deriving DecidableEq, Repr

/-- The parse structure of a well-formed three-part claims token: the header
algorithm, the payload claims, and whether the signature is valid for the
issuer's key. -/
structure JwtParts where
  alg : Algorithm
  claims : List (String × ClaimValue)
  sigValid : Bool
deriving DecidableEq, Repr

/-- A raw credential string together with its parse structure: either not a
parseable claims token at all (a plain non-token or malformed string), or
well formed with its parts. This is the view of the Rust `String` input that
`jsonwebtoken::decode` acts on. -/
inductive Credential where
  | malformed (raw : String)
  | parsed (raw : String) (parts : JwtParts)
deriving DecidableEq, Repr

/-- The underlying raw string of a credential. -/
def Credential.raw : Credential → String
  | .malformed r => r
  | .parsed r _ => r

/-- `jsonwebtoken::errors::Error` kinds observable through this client. -/
inductive JwtError where
  | invalidToken
  | invalidSignature
  | invalidAlgorithm
  | json
deriving DecidableEq, Repr

/-- The parts of `jsonwebtoken::Validation` this client configures. -/
structure Validation where
  algorithms : List Algorithm
  validateAud : Bool
  insecureDisableSignatureValidation : Bool
deriving DecidableEq, Repr

/-- Modelled from the spec: `jsonwebtoken::Validation::new(alg)` — allow the
one given algorithm, audience validation on, signature validation on. -/
def Validation.new (alg : Algorithm) : Validation :=
  { algorithms := [alg], validateAud := true
  , insecureDisableSignatureValidation := false }

/-- The claims shape expected by the client (`JWTData`, src/types.rs
lines 152-155): a string `username` claim. -/
structure JWTData where
  username : String
deriving DecidableEq, Repr

/-- `jsonwebtoken::TokenData`, specialized to `JWTData`. -/
structure TokenData where
  claims : JWTData
deriving DecidableEq, Repr

/-- Modelled from the spec: the external `jsonwebtoken::decode`, as the spec
assumes it behaves (spec section 4.2): a non-parseable input fails; the
header algorithm must belong to the allowed family; the signature is checked
only when signature validation is not disabled; audience validation is
vacuous here since no expected audience is ever configured; finally the
payload must deserialize into the expected claims shape (a string
`username` claim), else a decode error. -/
def jwtDecode (cred : Credential) (v : Validation) : Except JwtError TokenData :=
  match cred with
  | .malformed _ => .error .invalidToken
  | .parsed _ parts =>
    if parts.alg ∈ v.algorithms then
      if v.insecureDisableSignatureValidation || parts.sigValid then
        match parts.claims.lookup "username" with
        | some (.str u) => .ok { claims := { username := u } }
        | _ => .error .json
      else .error .invalidSignature
    else .error .invalidAlgorithm

/-- `Token` (src/types.rs lines 146-150): the account username extracted
from the claims, and the raw JWT string retained verbatim. -/
structure Token where
  username : String
  jwt : String
deriving DecidableEq, Repr

/-- The `Validation` configured by `Token::try_from` (src/types.rs
lines 161-163): RS256, signature validation disabled, audience validation
disabled. -/
def tokenValidation : Validation :=
  { Validation.new .RS256 with
      insecureDisableSignatureValidation := true, validateAud := false }

/-- `impl TryFrom<String> for Token` (src/types.rs lines 157-173): decode
the credential under `tokenValidation`; on success keep the raw string as
`jwt` and the extracted `username` claim. -/
def Token.tryFrom (cred : Credential) : Except JwtError Token :=
  (jwtDecode cred tokenValidation).map
    fun token => { jwt := cred.raw, username := token.claims.username }

/-- HTTP method of an assembled request. -/
inductive Method where
  | GET
  | POST
deriving DecidableEq, Repr

/-- An outgoing HTTP request as assembled by the reqwest builder calls:
method, full URL, query pairs in the order given, header pairs in the order
given, and an optional JSON object body (a flat string map, which is the
shape of every body this client sends). -/
structure Request where
  method : Method
  url : String
  query : List (String × String)
  headers : List (String × String)
  body : Option (List (String × String))
deriving DecidableEq, Repr

/-- The value of the first header with the given name, if any. -/
def Request.headerValue (r : Request) (k : String) : Option String :=
  r.headers.lookup k

/-- The value of the first query parameter with the given key, if any. -/
def Request.queryValue (r : Request) (k : String) : Option String :=
  r.query.lookup k

/-- The transport's answer to one request: either the send itself fails
(network-level error), or a response arrives with an HTTP status code and a
body that either structurally decodes to the expected shape `β` or fails
decoding. -/
inductive HttpResult (β : Type) where
  | sendFailure
  | response (status : Nat) (body : Option β)

/-- The `reqwest::Error` kinds this client's pipeline can produce and that
the caller can distinguish: a network-level send failure, a non-success
HTTP status (from `error_for_status`), and a body-decode failure (from
`.json()`). -/
inductive ReqwestError where
  | network
  | status (code : Nat)
  | decode
deriving DecidableEq, Repr

/-- The response pipeline shared by every call
(`.send().await?.error_for_status()?.json::<β>().await?`): a send failure
propagates as a network error; a status in `400..=599` (client or server
error) is turned into a status error by `error_for_status`; a body that does
not decode to `β` is a decode error. -/
def processResponse {β : Type} : HttpResult β → Except ReqwestError β
  | .sendFailure => .error .network
  | .response status body =>
    if 400 ≤ status ∧ status ≤ 599 then .error (.status status)
    else
      match body with
      | some v => .ok v
      | none => .error .decode

/-- `Client` (src/cloud/mod.rs lines 8-13): region plus auth token; the
reqwest transport handle carries no modelled state and is passed to each
operation as a function. -/
structure Client where
  region : Region
  auth_token : Token
deriving DecidableEq, Repr

/-- `url::Url`, carried as its serialized string. -/
structure Url where
  toString : String
deriving DecidableEq, Repr

/-- `url::ParseError`. -/
inductive UrlParseError where
  | parseError
deriving DecidableEq, Repr

/-- Modelled from the spec: the external `url::Url::from_str`; for the URLs
this client constructs from benign session fields (spec section 8's
round-trip property) the parse succeeds and serializes back to the input
string unchanged. -/
def Url.fromStr (s : String) : Except UrlParseError Url := .ok ⟨s⟩

/-- `chrono::DateTime<Utc>`, carried as a Unix timestamp in milliseconds. -/
structure DateTimeUtc where
  millis : Int
deriving DecidableEq, Repr

/-- `Device` (src/types.rs lines 24-34). -/
structure Device where
  name : String
  online : Bool
  dev_id : String
  print_status : String
  nozzle_diameter : Float
  dev_model_name : String
  dev_access_code : String
  dev_product_name : String
deriving Repr

/-- `AMSDetail` (src/types.rs lines 102-113). -/
structure AMSDetail where
  position : Nat
  source_color : String
  target_color : String
  filament_id : String
  filament_type : String
  target_filament_type : String
  weight : Float
deriving Repr

/-- `Task` (src/types.rs lines 72-100). -/
structure Task where
  id : Nat
  design_id : Nat
  design_title : String
  instance_id : Nat
  model_id : String
  title : String
  cover : Url
  status : Nat
  feedback_status : Nat
  start_time : DateTimeUtc
  end_time : DateTimeUtc
  weight : Float
  length : Nat
  cost_time : Nat
  profile_id : Nat
  plate_index : Nat
  plate_name : String
  device_id : String
  ams_detail_mapping : List AMSDetail
  mode : String
  is_public_profile : Bool
  is_printable : Bool
  device_model : String
  device_name : String
  bed_type : String
deriving Repr

/-- `Personal` (src/types.rs lines 135-144). -/
structure Personal where
  bio : String
  links : List Url
  task_weight_sum : Float
  task_length_sum : Nat
  task_time_sum : Nat
  background_url : Url
deriving Repr

/-- `Account` (src/types.rs lines 115-133). -/
structure Account where
  uid : Nat
  email : String
  name : String
  avatar : Url
  fan_count : Nat
  follow_count : Nat
  like_count : Nat
  collection_count : Nat
  download_count : Nat
  product_models : List String
  my_like_count : Nat
  favourites_count : Nat
  point : Nat
  personal : Personal
deriving Repr

/-- `LoginResponse` (src/types.rs lines 175-179). In Rust the access token
is a `String` handed straight to `Token::try_from`; here it is carried with
its parse structure as a `Credential`. -/
structure LoginResponse where
  access_token : Credential
deriving Repr

/-- `DevicesResponse` (src/types.rs lines 181-184). -/
structure DevicesResponse where
  devices : List Device
deriving Repr

/-- `TasksResponse` (src/types.rs lines 186-190). -/
structure TasksResponse where
  total : Nat
  hits : List Task
deriving Repr

/-- `DeviceCameraResponse` (src/types.rs lines 192-198). -/
structure DeviceCameraResponse where
  ttcode : String
  authkey : String
  passwd : String
  region : String
deriving DecidableEq, Repr

/-- `LoginError` (src/cloud/mod.rs lines 15-22): the transport-failure
variant wraps a `reqwest::Error`, the decode variant wraps a
`jsonwebtoken::errors::Error` (only Token issuance produces the latter). -/
inductive LoginError where
  | reqwest (e : ReqwestError)
  | decode (e : JwtError)
deriving DecidableEq, Repr

/-- `DeviceCameraError` (src/types.rs lines 200-207). -/
inductive DeviceCameraError where
  | reqwest (e : ReqwestError)
  | url (e : UrlParseError)
deriving DecidableEq, Repr

/-- The request assembled by `Client::login` (src/cloud/mod.rs lines 30-44):
POST to the region's login endpoint, credentials as a JSON body. -/
def login_request (region : Region) (email password : String) : Request :=
  { method := .POST
  , url :=
      if region.is_china then
        "https://api.bambulab.cn/v1/user-service/user/login"
      else
        "https://api.bambulab.com/v1/user-service/user/login"
  , query := []
  , headers := []
  , body := some [("account", email), ("password", password)] }

/-- The request assembled by `Client::get_profile` (src/cloud/mod.rs
lines 58-66). -/
def get_profile_request (c : Client) : Request :=
  { method := .GET
  , url :=
      if c.region.is_china then
        "https://api.bambulab.cn/v1/user-service/my/profile"
      else
        "https://api.bambulab.com/v1/user-service/my/profile"
  , query := []
  , headers := [("Authorization", "Bearer " ++ c.auth_token.jwt)]
  , body := none }

/-- The request assembled by `Client::get_devices` (src/cloud/mod.rs
lines 78-87). -/
def get_devices_request (c : Client) : Request :=
  { method := .GET
  , url :=
      if c.region.is_china then
        "https://api.bambulab.cn/v1/iot-service/api/user/bind"
      else
        "https://api.bambulab.com/v1/iot-service/api/user/bind"
  , query := []
  , headers := [("Authorization", "Bearer " ++ c.auth_token.jwt)]
  , body := none }

/-- The request assembled by `Client::get_tasks` (src/cloud/mod.rs
lines 101-117): fixed `limit=500`, and `deviceId` set to the supplied
filter or, via `unwrap_or_default`, the empty string. -/
def get_tasks_request (c : Client) (only_device : Option String) : Request :=
  { method := .GET
  , url :=
      if c.region.is_china then
        "https://api.bambulab.cn/v1/user-service/my/tasks"
      else
        "https://api.bambulab.com/v1/user-service/my/tasks"
  , query := [("limit", "500"), ("deviceId", only_device.getD "")]
  , headers := [("Authorization", "Bearer " ++ c.auth_token.jwt)]
  , body := none }

/-- The request assembled by `Device::get_bambu_camera_url` (src/types.rs
lines 46-59): POST to the ttcode endpoint with the bearer header, the
`user-id` header carrying the token's username, and the device id as the
JSON body. -/
def ttcode_request (d : Device) (c : Client) : Request :=
  { method := .POST
  , url :=
      if c.region.is_china then
        "https://api.bambulab.cn/v1/iot-service/api/user/ttcode"
      else
        "https://api.bambulab.com/v1/iot-service/api/user/ttcode"
  , query := []
  , headers :=
      [ ("Authorization", "Bearer " ++ c.auth_token.jwt)
      , ("user-id", c.auth_token.username) ]
  , body := some [("dev_id", d.dev_id)] }

/-- `Client::login` (src/cloud/mod.rs lines 30-51): run the response
pipeline; a `reqwest::Error` becomes the transport variant, and a failure of
Token issuance on the returned access credential becomes the decode
variant. -/
def login (region : Region) (email password : String)
    (transport : Request → HttpResult LoginResponse) : Except LoginError Client :=
  match processResponse (transport (login_request region email password)) with
  | .error e => .error (.reqwest e)
  | .ok resp =>
    match Token.tryFrom resp.access_token with
    | .error e => .error (.decode e)
    | .ok t => .ok { region := region, auth_token := t }

/-- `Client::get_profile` (src/cloud/mod.rs lines 58-71). -/
def get_profile (c : Client)
    (transport : Request → HttpResult Account) : Except ReqwestError Account :=
  processResponse (transport (get_profile_request c))

/-- `Client::get_devices` (src/cloud/mod.rs lines 78-94): returns the
`devices` array of the decoded response. -/
def get_devices (c : Client)
    (transport : Request → HttpResult DevicesResponse) :
    Except ReqwestError (List Device) :=
  (processResponse (transport (get_devices_request c))).map fun r => r.devices

/-- `Client::get_tasks` (src/cloud/mod.rs lines 101-124): returns the
`hits` array of the decoded response. -/
def get_tasks (c : Client) (only_device : Option String)
    (transport : Request → HttpResult TasksResponse) :
    Except ReqwestError (List Task) :=
  (processResponse (transport (get_tasks_request c only_device))).map
    fun r => r.hits

/-- `Device::get_bambu_camera_url` (src/types.rs lines 42-69): run the
pipeline on the ttcode request, then build the `bambu:///` URL from the
session descriptor's fields. -/
def Device.get_bambu_camera_url (d : Device) (c : Client)
    (transport : Request → HttpResult DeviceCameraResponse) :
    Except DeviceCameraError Url :=
  match processResponse (transport (ttcode_request d c)) with
  | .error e => .error (.reqwest e)
  | .ok resp =>
    match Url.fromStr ("bambu:///" ++ resp.ttcode ++ "?authkey=" ++ resp.authkey
        ++ "&passwd=" ++ resp.passwd ++ "&region=" ++ resp.region) with
    | .error e => .error (.url e)
    | .ok u => .ok u

/-- `Client::mqtt_host` (src/cloud/mod.rs lines 127-134). -/
def Client.mqtt_host (c : Client) : String :=
  if c.region.is_china then "cn.mqtt.bambulab.com" else "us.mqtt.bambulab.com"

/-- C1: for the China region every endpoint is the `.cn` / `cn.`-prefixed
variant (login and resource URLs on api.bambulab.cn, MQTT host
cn.mqtt.bambulab.com), and for every region other than China the resolved
hosts are identical to each other: api.bambulab.com for REST and
us.mqtt.bambulab.com for MQTT. -/
theorem region_host_resolution (e p : String) (t : Token)
    (od : Option String) (d : Device) :
    ((login_request .China e p).url
        = "https://api.bambulab.cn/v1/user-service/user/login"
      ∧ (get_profile_request ⟨.China, t⟩).url
        = "https://api.bambulab.cn/v1/user-service/my/profile"
      ∧ (get_devices_request ⟨.China, t⟩).url
        = "https://api.bambulab.cn/v1/iot-service/api/user/bind"
      ∧ (get_tasks_request ⟨.China, t⟩ od).url
        = "https://api.bambulab.cn/v1/user-service/my/tasks"
      ∧ (ttcode_request d ⟨.China, t⟩).url
        = "https://api.bambulab.cn/v1/iot-service/api/user/ttcode"
      ∧ Client.mqtt_host ⟨.China, t⟩ = "cn.mqtt.bambulab.com")
    ∧ ∀ r : Region, r ≠ .China →
        ((login_request r e p).url
            = "https://api.bambulab.com/v1/user-service/user/login"
          ∧ (get_profile_request ⟨r, t⟩).url
            = "https://api.bambulab.com/v1/user-service/my/profile"
          ∧ (get_devices_request ⟨r, t⟩).url
            = "https://api.bambulab.com/v1/iot-service/api/user/bind"
          ∧ (get_tasks_request ⟨r, t⟩ od).url
            = "https://api.bambulab.com/v1/user-service/my/tasks"
          ∧ (ttcode_request d ⟨r, t⟩).url
            = "https://api.bambulab.com/v1/iot-service/api/user/ttcode"
          ∧ Client.mqtt_host ⟨r, t⟩ = "us.mqtt.bambulab.com") := by
  refine ⟨⟨rfl, rfl, rfl, rfl, rfl, rfl⟩, ?_⟩
  intro r hr
  cases r
  case China => exact absurd rfl hr
  all_goals exact ⟨rfl, rfl, rfl, rfl, rfl, rfl⟩

/-- Witness for C1 at region Europe with concrete inputs. -/
theorem region_host_resolution_witness :
    (login_request .Europe "e" "p").url
      = "https://api.bambulab.com/v1/user-service/user/login"
    ∧ Client.mqtt_host ⟨.Europe, ⟨"alice", "h.p.s"⟩⟩ = "us.mqtt.bambulab.com" :=
  have h :=
    (region_host_resolution "e" "p" ⟨"alice", "h.p.s"⟩ none
      ⟨"P1", true, "d1", "IDLE", 0.4, "C11", "ac", "P1"⟩).2 .Europe (by decide)
  ⟨h.1, h.2.2.2.2.2⟩

/-- C2: for every syntactically valid claims credential whose payload
contains the claim `username` with value "alice", Token issuance succeeds
and the resulting Token's username equals "alice", regardless of whether
the credential's signature is valid. -/
theorem token_issuance_success (raw : String)
    (claims : List (String × ClaimValue)) (sigV : Bool)
    (h : claims.lookup "username" = some (.str "alice")) :
    Token.tryFrom (.parsed raw ⟨.RS256, claims, sigV⟩) = .ok ⟨"alice", raw⟩ := by
  simp [Token.tryFrom, jwtDecode, tokenValidation, Validation.new,
    Credential.raw, h, Except.map]

/-- Witness for C2: a concrete credential with an invalid signature. -/
theorem token_issuance_success_witness :
    Token.tryFrom
        (.parsed "h.p.s" ⟨.RS256, [("username", .str "alice")], false⟩)
      = .ok ⟨"alice", "h.p.s"⟩ :=
  token_issuance_success "h.p.s" [("username", .str "alice")] false (by decide)

/-- C5: every request issued by get_tasks carries query parameter
limit=500, and the deviceId query parameter key is always present — equal
to the supplied device identifier when a filter is given, and equal to the
empty string (not absent) when called with no device filter. -/
theorem get_tasks_query_shaping (c : Client) (od : Option String) :
    (get_tasks_request c od).queryValue "limit" = some "500"
    ∧ (get_tasks_request c od).queryValue "deviceId" = some (od.getD "")
    ∧ (od = none → (get_tasks_request c od).queryValue "deviceId" = some "")
    ∧ (∀ s, od = some s →
        (get_tasks_request c od).queryValue "deviceId" = some s) := by
  refine ⟨rfl, rfl, ?_, ?_⟩
  · intro h; subst h; rfl
  · intro s h; subst h; rfl

/-- Witness for C5: both the no-filter and the filtered case concretely. -/
theorem get_tasks_query_shaping_witness :
    (get_tasks_request ⟨.Europe, ⟨"alice", "h.p.s"⟩⟩ none).queryValue "deviceId"
      = some ""
    ∧ (get_tasks_request ⟨.Europe, ⟨"alice", "h.p.s"⟩⟩ (some "d1")).queryValue
        "deviceId" = some "d1" :=
  ⟨(get_tasks_query_shaping ⟨.Europe, ⟨"alice", "h.p.s"⟩⟩ none).2.2.1 rfl,
    (get_tasks_query_shaping ⟨.Europe, ⟨"alice", "h.p.s"⟩⟩ (some "d1")).2.2.2
      "d1" rfl⟩

/-- C7: for a ttcode response with fields ttcode="t", authkey="a",
passwd="p", region="r", camera-URL issuance returns exactly the URL
bambu:///t?authkey=a&passwd=p&region=r. -/
theorem camera_url_round_trip (d : Device) (c : Client) :
    Device.get_bambu_camera_url d c
        (fun _ => .response 200 (some ⟨"t", "a", "p", "r"⟩))
      = .ok ⟨"bambu:///t?authkey=a&passwd=p&region=r"⟩ := by
  rfl

/-- C8: every camera-URL issuance request is a POST carrying the device
identifier in the body and both required headers — Authorization: Bearer
<jwt> and user-id set to the Token's username. -/
theorem camera_call_headers (d : Device) (c : Client) :
    (ttcode_request d c).method = .POST
    ∧ (ttcode_request d c).body = some [("dev_id", d.dev_id)]
    ∧ (ttcode_request d c).headerValue "Authorization"
      = some ("Bearer " ++ c.auth_token.jwt)
    ∧ (ttcode_request d c).headerValue "user-id"
      = some c.auth_token.username :=
  ⟨rfl, rfl, rfl, rfl⟩

/-- C10: get_tasks with an explicitly supplied empty device-identifier
filter is indistinguishable from get_tasks with no filter: the assembled
requests are equal (same method, URL, query, headers, body), and so are the
operations' results under any transport. -/
theorem get_tasks_empty_filter_identical (c : Client) :
    get_tasks_request c (some "") = get_tasks_request c none
    ∧ ∀ transport, get_tasks c (some "") transport = get_tasks c none transport :=
  ⟨rfl, fun _ => rfl⟩

/-- C3: for every credential on which Token issuance succeeds, the
resulting Token stores the raw string unchanged as its jwt field, and every
authenticated operation's request carries exactly the header value
"Bearer " followed by that unmodified string. -/
theorem bearer_credential_verbatim (cred : Credential) (t : Token)
    (h : Token.tryFrom cred = .ok t) :
    t.jwt = cred.raw
    ∧ ∀ (r : Region) (od : Option String) (d : Device),
        (get_profile_request ⟨r, t⟩).headerValue "Authorization"
          = some ("Bearer " ++ cred.raw)
        ∧ (get_devices_request ⟨r, t⟩).headerValue "Authorization"
          = some ("Bearer " ++ cred.raw)
        ∧ (get_tasks_request ⟨r, t⟩ od).headerValue "Authorization"
          = some ("Bearer " ++ cred.raw)
        ∧ (ttcode_request d ⟨r, t⟩).headerValue "Authorization"
          = some ("Bearer " ++ cred.raw) := by
  have hjwt : t.jwt = cred.raw := by
    simp only [Token.tryFrom] at h
    cases hd : jwtDecode cred tokenValidation with
    | error e =>
      rw [hd] at h
      simp only [Except.map] at h
      exact Except.noConfusion h
    | ok dta =>
      rw [hd] at h
      simp only [Except.map, Except.ok.injEq] at h
      rw [← h]
  refine ⟨hjwt, ?_⟩
  intro r od d
  refine ⟨?_, ?_, ?_, ?_⟩ <;>
    simp [get_profile_request, get_devices_request, get_tasks_request,
      ttcode_request, Request.headerValue, List.lookup, hjwt]

/-- Witness for C3 on a concrete credential: the jwt field is the raw
string and the profile request carries it verbatim as a bearer header. -/
theorem bearer_credential_verbatim_witness :
    (Token.mk "alice" "h.p.s").jwt
      = (Credential.parsed "h.p.s"
          ⟨.RS256, [("username", .str "alice")], true⟩).raw
    ∧ (get_profile_request ⟨.Europe, ⟨"alice", "h.p.s"⟩⟩).headerValue
        "Authorization"
      = some ("Bearer "
          ++ (Credential.parsed "h.p.s"
              ⟨.RS256, [("username", .str "alice")], true⟩).raw) :=
  have h :=
    bearer_credential_verbatim
      (.parsed "h.p.s" ⟨.RS256, [("username", .str "alice")], true⟩)
      ⟨"alice", "h.p.s"⟩ (by rfl)
  ⟨h.1,
    (h.2 .Europe none ⟨"P1", true, "d1", "IDLE", 0.4, "C11", "ac", "P1"⟩).1⟩

/-- C4: for each of get_profile, get_devices and get_tasks, a structural
decode failure of the response body on a success status surfaces as the
decode error, which is a value distinct from the network error and from
every status error. -/
theorem decode_failure_distinct (c : Client) (od : Option String)
    (status : Nat) (h : ¬ (400 ≤ status ∧ status ≤ 599)) :
    get_profile c (fun _ => .response status none) = .error .decode
    ∧ get_devices c (fun _ => .response status none) = .error .decode
    ∧ get_tasks c od (fun _ => .response status none) = .error .decode
    ∧ (∀ code, ReqwestError.decode ≠ .status code)
    ∧ ReqwestError.decode ≠ .network := by
  refine ⟨?_, ?_, ?_, fun code hc => ReqwestError.noConfusion hc,
    fun hc => ReqwestError.noConfusion hc⟩ <;>
    simp [get_profile, get_devices, get_tasks, processResponse, h, Except.map]

/-- Witness for C4 at HTTP status 200. -/
theorem decode_failure_distinct_witness :
    get_profile ⟨.Europe, ⟨"alice", "h.p.s"⟩⟩ (fun _ => .response 200 none)
      = .error .decode
    ∧ ReqwestError.decode ≠ .network :=
  have h :=
    decode_failure_distinct ⟨.Europe, ⟨"alice", "h.p.s"⟩⟩ none 200 (by decide)
  ⟨h.1, h.2.2.2.2⟩

/-- C6: a login that receives a non-success HTTP status or a network-level
failure yields the transport-failure (reqwest) variant of LoginError, never
the decode variant; a decode-variant error arises exactly when the pipeline
succeeded and Token issuance on the returned access credential failed; and
the two variants are distinct values. -/
theorem login_error_classification :
    (∀ (r : Region) (e p : String) (st : Nat), 400 ≤ st → st ≤ 599 →
      ∀ body : Option LoginResponse,
        login r e p (fun _ => .response st body)
          = .error (.reqwest (.status st)))
    ∧ (∀ (r : Region) (e p : String),
        login r e p (fun _ => .sendFailure) = .error (.reqwest .network))
    ∧ (∀ (r : Region) (e p : String) (st : Nat) (cred : Credential)
        (err : JwtError), ¬ (400 ≤ st ∧ st ≤ 599) →
        Token.tryFrom cred = .error err →
        login r e p (fun _ => .response st (some ⟨cred⟩))
          = .error (.decode err))
    ∧ (∀ (r : Region) (e p : String)
        (transport : Request → HttpResult LoginResponse) (err : JwtError),
        login r e p transport = .error (.decode err) →
        ∃ resp, processResponse (transport (login_request r e p)) = .ok resp
          ∧ Token.tryFrom resp.access_token = .error err)
    ∧ (∀ e1 e2, LoginError.reqwest e1 ≠ LoginError.decode e2) := by
  refine ⟨?_, ?_, ?_, ?_, fun e1 e2 hc => LoginError.noConfusion hc⟩
  · intro r e p st h1 h2 body
    simp [login, processResponse, h1, h2]
  · intro r e p
    simp [login, processResponse]
  · intro r e p st cred err hst htok
    simp [login, processResponse, hst, htok]
  · intro r e p transport err h
    cases hp : processResponse (transport (login_request r e p)) with
    | error e0 =>
      have hv : login r e p transport = .error (.reqwest e0) := by
        simp [login, hp]
      rw [hv] at h
      exact absurd (Except.error.inj h) (fun hc => LoginError.noConfusion hc)
    | ok resp =>
      cases ht : Token.tryFrom resp.access_token with
      | error e0 =>
        have hv : login r e p transport = .error (.decode e0) := by
          simp [login, hp, ht]
        rw [hv] at h
        have he : e0 = err := LoginError.decode.inj (Except.error.inj h)
        exact ⟨resp, rfl, by rw [ht, he]⟩
      | ok t =>
        have hv : login r e p transport = .ok { region := r, auth_token := t } := by
          simp [login, hp, ht]
        rw [hv] at h
        exact Except.noConfusion h

/-- Witness for C6: an HTTP 401 yields the transport variant; a success
status with a non-parseable access credential yields the decode variant. -/
theorem login_error_classification_witness :
    login .Europe "e" "p" (fun _ => .response 401 none)
      = .error (.reqwest (.status 401))
    ∧ login .Europe "e" "p" (fun _ => .response 200 (some ⟨.malformed "nope"⟩))
      = .error (.decode .invalidToken) :=
  ⟨login_error_classification.1 .Europe "e" "p" 401 (by decide) (by decide)
      none,
    login_error_classification.2.2.1 .Europe "e" "p" 200 (.malformed "nope")
      .invalidToken (by decide) rfl⟩

/-- C9: Token issuance fails (returns a decode error, it neither succeeds
nor crashes) on every input that is not a parseable claims structure of the
expected shape: a malformed or plain non-token string, a well-formed token
with an unexpected algorithm, and a well-formed RS256 token whose payload
lacks the username claim. -/
theorem token_issuance_decode_failure :
    (∀ raw, ∃ err, Token.tryFrom (.malformed raw) = .error err)
    ∧ (∀ raw claims sigV alg, alg ≠ Algorithm.RS256 →
        ∃ err, Token.tryFrom (.parsed raw ⟨alg, claims, sigV⟩) = .error err)
    ∧ (∀ raw claims sigV, claims.lookup "username" = none →
        ∃ err, Token.tryFrom (.parsed raw ⟨.RS256, claims, sigV⟩)
          = .error err) := by
  refine ⟨fun raw => ⟨.invalidToken, rfl⟩, ?_, ?_⟩
  · intro raw claims sigV alg halg
    exact ⟨.invalidAlgorithm, by
      simp [Token.tryFrom, jwtDecode, tokenValidation, Validation.new,
        Except.map, halg]⟩
  · intro raw claims sigV hlk
    exact ⟨.json, by
      simp [Token.tryFrom, jwtDecode, tokenValidation, Validation.new,
        Except.map, hlk]⟩

/-- Witness for C9: a plain non-token string, an HS256 token, and an RS256
token without a username claim all fail issuance. -/
theorem token_issuance_decode_failure_witness :
    (∃ err, Token.tryFrom (.malformed "not a token") = .error err)
    ∧ (∃ err, Token.tryFrom
        (.parsed "x.y.z" ⟨.HS256, [("username", .str "alice")], true⟩)
        = .error err)
    ∧ (∃ err, Token.tryFrom (.parsed "x.y.z" ⟨.RS256, [("exp", .num 0)], true⟩)
        = .error err) :=
  ⟨token_issuance_decode_failure.1 "not a token",
    token_issuance_decode_failure.2.1 "x.y.z" [("username", .str "alice")]
      true .HS256 (by decide),
    token_issuance_decode_failure.2.2 "x.y.z" [("exp", .num 0)] true
      (by decide)⟩

end BambuLab
